import Mathlib

/-!
Shallow embedding of the switchboard server (`src/apps/server.c`) and proofs
about its routing table, message dispatcher, client registry, startup route
loader and monitor/recorder.

Modelling conventions:
* C strings (NUL-terminated `char` arrays) are `List Char` (`Chars`);
  `strncpy(dst, src, n)` followed by `dst[n] = 0` is `src.take n`.
* The fixed arrays `clients[MAX_CLIENTS]` and `client_data[MAX_CLIENTS]` are
  parallel lists; C array reads are `List.getD`, writes are `List.set`.
* The 2-D array `Route routing[MAX_CLIENTS + 1][CHANNELS_PER_APP]` is embedded
  as a total function `Int → Int → Route` (the value the cell would hold when
  the indices are in bounds); the in-bounds question itself is treated
  separately via `routing_row_in_bounds` / `routing_col_in_bounds` and the
  access lists returned by the route-file processor.
* `recv` either fails / reports end of stream (`none`) or returns the chunk of
  at most `sizeof(buf) - 1 = 511` bytes that was read (`some chunk`).
* Bytes written to a client socket and socket closes are recorded as `Action`s;
  operator `printf` diagnostics are not modelled.
-/

namespace Switchboard

/-- `#define MAX_CLIENTS 20` -/
def MAX_CLIENTS : Nat := 20

/-- `#define CHANNELS_PER_APP 5` -/
def CHANNELS_PER_APP : Nat := 5

/-- `#define MAX_MSG_LENGTH 512` -/
def MAX_MSG_LENGTH : Nat := 512

/-- A C string, as the list of its characters up to the terminating NUL. -/
abbrev Chars := List Char

/-- One entry of the routing table (`typedef struct { ... } Route`).
`in_client_id = -1` means "no route". -/
structure Route where
  in_client_id : Int
  in_channel : Int
deriving DecidableEq, Repr, Inhabited

/-- One slot of `static ClientInfo clients[MAX_CLIENTS]`. -/
structure ClientInfo where
  sockfd : Int
  client_id : Int
  active : Bool
  name : Chars
deriving DecidableEq, Repr, Inhabited

/-- One slot of `static ClientData client_data[MAX_CLIENTS]`: the per-channel
caches of the last output and last forwarded input text. -/
structure ClientData where
  last_out : List Chars
  last_in : List Chars
deriving DecidableEq, Repr, Inhabited

/-- The server's mutable globals: `clients`, `client_data`, `next_client_id`
and `routing`. -/
structure ServerState where
  clients : List ClientInfo
  client_data : List ClientData
  next_client_id : Int
  routing : Int → Int → Route

/-- Observable effects on client sockets (`write`/`send` and `close`). -/
inductive Action where
  | sent (sockfd : Int) (text : Chars)
  | closed (sockfd : Int)
deriving DecidableEq, Repr

/-- Well-formedness that `main`'s initialisation establishes: the two parallel
arrays have `MAX_CLIENTS` slots and every cache has `CHANNELS_PER_APP`
channels. -/
def ServerState.WF (st : ServerState) : Prop :=
  st.clients.length = MAX_CLIENTS ∧
  st.client_data.length = MAX_CLIENTS ∧
  ∀ cd ∈ st.client_data,
    cd.last_out.length = CHANNELS_PER_APP ∧ cd.last_in.length = CHANNELS_PER_APP

instance (st : ServerState) : Decidable st.WF := by
  unfold ServerState.WF; infer_instance

/-- The state after `main`'s `memset(clients, 0, ...)`,
`memset(routing, -1, ...)` and `memset(client_data, 0, ...)`. -/
def init_state : ServerState :=
  { clients := List.replicate MAX_CLIENTS { sockfd := 0, client_id := 0, active := false, name := [] }
    client_data := List.replicate MAX_CLIENTS
      { last_out := List.replicate CHANNELS_PER_APP []
        last_in := List.replicate CHANNELS_PER_APP [] }
    next_client_id := 1
    routing := fun _ _ => { in_client_id := -1, in_channel := -1 } }

/-- Decimal rendering of an `int`, as produced by `printf`/`snprintf` `%d`. -/
def int_chars (n : Int) : Chars := (toString n).toList

/-- Writing `routing[cid][ch] = v` (both fields). -/
def routing_set (r : Int → Int → Route) (cid ch : Int) (v : Route) : Int → Int → Route :=
  fun c k => if c = cid ∧ k = ch then v else r c k

/-- Valid first indices of `Route routing[MAX_CLIENTS + 1][CHANNELS_PER_APP]`. -/
def routing_row_in_bounds (cid : Int) : Prop :=
  0 ≤ cid ∧ cid ≤ (MAX_CLIENTS : Int)

/-- Valid second indices of `Route routing[MAX_CLIENTS + 1][CHANNELS_PER_APP]`. -/
def routing_col_in_bounds (ch : Int) : Prop :=
  0 ≤ ch ∧ ch < (CHANNELS_PER_APP : Int)

instance (cid : Int) : Decidable (routing_row_in_bounds cid) := by
  unfold routing_row_in_bounds; infer_instance

instance (ch : Int) : Decidable (routing_col_in_bounds ch) := by
  unfold routing_col_in_bounds; infer_instance

/-- `isspace` on the characters `atoi` skips. -/
def isspace_c (c : Char) : Bool :=
  c == ' ' || c == '\t' || c == '\n' || c == '\x0b' || c == '\x0c' || c == '\r'

/-- Digit-accumulation loop of `atoi`. -/
def atoi_loop : Chars → Nat → Nat
  | [], acc => acc
  | c :: rest, acc =>
    if c.isDigit then atoi_loop rest (acc * 10 + (c.toNat - 48)) else acc

/-- C `atoi`: skip whitespace, optional sign, then leading digits. -/
def atoi (s : Chars) : Int :=
  match s.dropWhile isspace_c with
  | '-' :: rest => -(atoi_loop rest 0 : Int)
  | '+' :: rest => (atoi_loop rest 0 : Int)
  | t => (atoi_loop t 0 : Int)

/-- The loop body of `find_client_index`, scanning slots from position `i`:
first active slot whose `client_id` equals `cid`, else `-1`. -/
def find_client_index_from (cs : List ClientInfo) (cid : Int) (i : Nat) : Int :=
  match cs with
  | [] => -1
  | c :: rest =>
    if c.active && (c.client_id == cid) then (i : Int)
    else find_client_index_from rest cid (i + 1)

/-- `find_client_index(cid)`. -/
def find_client_index (st : ServerState) (cid : Int) : Int :=
  find_client_index_from st.clients cid 0

/-- `route_command`: refuses unless both endpoints are currently active
clients, then overwrites `routing[outCID][outCH]`. -/
def route_command (st : ServerState) (outCID outCH inCID inCH : Int) : ServerState :=
  if find_client_index st outCID < 0 then st
  else if find_client_index st inCID < 0 then st
  else { st with routing := routing_set st.routing outCID outCH
                   { in_client_id := inCID, in_channel := inCH } }

/-- `route_command_from_file`: overwrites `routing[outCID][outCH]` without any
liveness check. -/
def route_command_from_file (st : ServerState) (outCID outCH inCID inCH : Int) : ServerState :=
  { st with routing := routing_set st.routing outCID outCH
              { in_client_id := inCID, in_channel := inCH } }

/-- First inactive slot, as the `for` loop of `handle_new_connection` finds it. -/
def find_free_slot : List ClientInfo → Option Nat
  | [] => none
  | c :: rest => if c.active then (find_free_slot rest).map (fun n => n + 1) else some 0

/-- The `"Server full.\n"` notice. -/
def server_full_msg : Chars := "Server full.\n".toList

/-- The greeting `snprintf(greet, 128, "Welcome to Switchboard. ...", cid)`. -/
def greet_msg (cid : Int) : Chars :=
  ("Welcome to Switchboard. You are client_id=".toList ++ int_chars cid
    ++ ", with 5 in / 5 out.\n".toList).take 127

/-- The slot label `snprintf(name, 64, "Client%d", cid)`. -/
def client_name (cid : Int) : Chars :=
  ("Client".toList ++ int_chars cid).take 63

/-- `handle_new_connection`: find a free slot; if none, notify and close the
new socket leaving everything unchanged; otherwise occupy the slot, assign
`next_client_id++` and greet. -/
def handle_new_connection (st : ServerState) (client_sock : Int) : ServerState × List Action :=
  match find_free_slot st.clients with
  | none => (st, [Action.sent client_sock server_full_msg, Action.closed client_sock])
  | some idx =>
    let cid := st.next_client_id
    ({ st with
        clients := st.clients.set idx
          { sockfd := client_sock, client_id := cid, active := true, name := client_name cid }
        next_client_id := st.next_client_id + 1 },
     [Action.sent client_sock (greet_msg cid)])

/-- The successive complete `'\n'`-terminated lines of a buffer, as the
`strchr(start, '\n')` loop of `handle_client_input` visits them; the trailing
text after the last newline is not visited. -/
def complete_lines : Chars → List Chars
  | [] => []
  | c :: rest =>
    if c = '\n' then [] :: complete_lines rest
    else
      match complete_lines rest with
      | [] => []
      | l :: ls => (c :: l) :: ls

/-- The text after the first `':'` of a line (`strchr(start, ':')`), when any. -/
def after_first_colon : Chars → Option Chars
  | [] => none
  | c :: rest => if c = ':' then some rest else after_first_colon rest

/-- Processing of one complete line by `handle_client_input` (lines 256-295 of
`server.c`): truncate at a CR, recognise `out<digit>`, extract the payload
after the first colon, cache it in `last_out`, look up the route and, when the
destination is a live client, send the `in<N> from client<ID>:` envelope and
cache it in the destination's `last_in`. -/
def dispatch_line (st : ServerState) (i : Nat) (start0 : Chars) : ServerState × List Action :=
  let start := start0.takeWhile (fun c => c != '\r')
  let out_ch : Int :=
    match start with
    | 'o' :: 'u' :: 't' :: d :: _ => if d.isDigit then (d.toNat : Int) - 48 else -1
    | _ => -1
  if 0 ≤ out_ch ∧ out_ch < (CHANNELS_PER_APP : Int) then
    let msg : Chars :=
      match after_first_colon start with
      | some rest => rest.dropWhile (fun c => c == ' ' || c == '\t')
      | none => []
    let cd := st.client_data.getD i default
    let cd1 := { cd with last_out := cd.last_out.set out_ch.toNat (msg.take (MAX_MSG_LENGTH - 1)) }
    let st1 := { st with client_data := st.client_data.set i cd1 }
    let out_cid := (st.clients.getD i default).client_id
    let r := st1.routing out_cid out_ch
    if 0 ≤ r.in_client_id then
      let idx_in := find_client_index st1 r.in_client_id
      if 0 ≤ idx_in ∧ (st1.clients.getD idx_in.toNat default).active then
        let outbuf := ("in".toList ++ int_chars r.in_channel ++ " from client".toList
                        ++ int_chars out_cid ++ ": ".toList ++ msg ++ ['\n']).take 599
        let j := idx_in.toNat
        let cdj := st1.client_data.getD j default
        let cdj1 := { cdj with
          last_in := cdj.last_in.set r.in_channel.toNat (outbuf.take (MAX_MSG_LENGTH - 1)) }
        ({ st1 with client_data := st1.client_data.set j cdj1 },
         [Action.sent (st1.clients.getD j default).sockfd outbuf])
      else (st1, [])
    else (st1, [])
  else (st, [])

/-- Sequential processing of the complete lines of one `recv` buffer. -/
def dispatch_lines (i : Nat) : ServerState → List Chars → ServerState × List Action
  | st, [] => (st, [])
  | st, l :: rest =>
    let p := dispatch_line st i l
    let q := dispatch_lines i p.1 rest
    (q.1, p.2 ++ q.2)

/-- `handle_client_input(i)`: `recv` failure or end of stream (`none`) closes
the socket and clears the slot's `active` flag (caches and routes untouched);
otherwise the complete lines of the freshly read chunk are processed and any
trailing partial line is discarded with the stack buffer `buf`. -/
def handle_client_input (st : ServerState) (i : Nat) (recv : Option Chars) :
    ServerState × List Action :=
  match recv with
  | none =>
    let c := st.clients.getD i default
    ({ st with clients := st.clients.set i { c with active := false } },
     [Action.closed c.sockfd])
  | some buf => dispatch_lines i st (complete_lines buf)

/-- Parse of an output-channel token (`pOutStr`, lines 373-381 / 533-545):
returns `(outAll, fixedOut)` where `fixedOut = -1` stands for "not parsed";
accepts `all`, a decimal number, or `out<digit>`. -/
def parse_out_chspec (tok : Chars) : Bool × Int :=
  if tok = "all".toList then (true, -1)
  else
    match tok with
    | [] => (false, -1)
    | c :: _ =>
      if c.isDigit then (false, atoi tok)
      else
        match tok with
        | 'o' :: 'u' :: 't' :: d :: _ =>
          if d.isDigit then (false, (d.toNat : Int) - 48) else (false, -1)
        | _ => (false, -1)

/-- Parse of an input-channel token (`pInStr`, lines 382-390 / 546-558):
accepts `all`, a decimal number, or `in<digit>`. -/
def parse_in_chspec (tok : Chars) : Bool × Int :=
  if tok = "all".toList then (true, -1)
  else
    match tok with
    | [] => (false, -1)
    | c :: _ =>
      if c.isDigit then (false, atoi tok)
      else
        match tok with
        | 'i' :: 'n' :: d :: _ =>
          if d.isDigit then (false, (d.toNat : Int) - 48) else (false, -1)
        | _ => (false, -1)

/-- The four-way bulk expansion of a route request (lines 399-414 and 569-583):
the list of `(outCID, outCH, inCID, inCH)` quadruples passed, in order, to
`route_command` / `route_command_from_file`. -/
def expand_calls (outCID : Int) (outAll : Bool) (fixedOut : Int)
    (inCID : Int) (inAll : Bool) (fixedIn : Int) : List (Int × Int × Int × Int) :=
  if outAll && inAll then
    (List.range CHANNELS_PER_APP).map (fun i => (outCID, (i : Int), inCID, (i : Int)))
  else if outAll && !inAll then
    (List.range CHANNELS_PER_APP).map (fun i => (outCID, (i : Int), inCID, fixedIn))
  else if !outAll && inAll then
    (List.range CHANNELS_PER_APP).map (fun i => (outCID, fixedOut, inCID, (i : Int)))
  else [(outCID, fixedOut, inCID, fixedIn)]

/-- The console `route` command with its four `strtok` tokens (lines 361-414
of `handle_console_input`): parse, validate the channel ranges, then apply
`route_command` for each expanded quadruple. -/
def console_route_tokens (st : ServerState) (pOutCID pOutStr pInCID pInStr : Chars) :
    ServerState :=
  let outCID := atoi pOutCID
  let inCID := atoi pInCID
  let p := parse_out_chspec pOutStr
  let q := parse_in_chspec pInStr
  if !p.1 ∧ (p.2 < 0 ∨ (CHANNELS_PER_APP : Int) ≤ p.2) then st
  else if !q.1 ∧ (q.2 < 0 ∨ (CHANNELS_PER_APP : Int) ≤ q.2) then st
  else
    (expand_calls outCID p.1 p.2 inCID q.1 q.2).foldl
      (fun s c => route_command s c.1 c.2.1 c.2.2.1 c.2.2.2) st

/-- One `route` line of the startup file after validation (lines 569-583):
apply `route_command_from_file` for each expanded quadruple, also returning
the list of `routing[outCID][outCH]` write indices the calls perform. -/
def file_route_tokens (st : ServerState) (pOutCID pOutStr pInCID pInStr : Chars) :
    ServerState × List (Int × Int) :=
  let outCID := atoi pOutCID
  let inCID := atoi pInCID
  let p := parse_out_chspec pOutStr
  let q := parse_in_chspec pInStr
  if !p.1 ∧ (p.2 < 0 ∨ (CHANNELS_PER_APP : Int) ≤ p.2) then (st, [])
  else if !q.1 ∧ (q.2 < 0 ∨ (CHANNELS_PER_APP : Int) ≤ q.2) then (st, [])
  else
    (expand_calls outCID p.1 p.2 inCID q.1 q.2).foldl
      (fun s c => (route_command_from_file s.1 c.1 c.2.1 c.2.2.1 c.2.2.2,
                   s.2 ++ [(c.1, c.2.1)]))
      (st, [])

/-- One-pass worker for `tokenize_spaces`: `acc` is the reversed current
token. -/
def tokenize_aux : Chars → Chars → List Chars
  | [], acc => if acc = [] then [] else [acc.reverse]
  | c :: rest, acc =>
    if c = ' ' then
      if acc = [] then tokenize_aux rest [] else acc.reverse :: tokenize_aux rest []
    else tokenize_aux rest (c :: acc)

/-- `strtok(line, " ")` iterated: the maximal space-free tokens of a line. -/
def tokenize_spaces (cs : Chars) : List Chars := tokenize_aux cs []

/-- `trim_newline`: truncate at the first `'\n'`, then at the first `'\r'`. -/
def trim_newline (s : Chars) : Chars :=
  (s.takeWhile (fun c => c != '\n')).takeWhile (fun c => c != '\r')

/-- `strncmp(line, "route", 5) == 0`. -/
def starts_with_route (cs : Chars) : Bool :=
  match cs with
  | 'r' :: 'o' :: 'u' :: 't' :: 'e' :: _ => true
  | _ => false

/-- Handling of one line of `route.rt` by `process_routing_file`
(lines 510-584): skip blank lines and lines not beginning with `route`,
require the first token to be exactly `route` and four further tokens, then
delegate to `file_route_tokens`.  Diagnostics and the `all_success` flag are
not modelled; the second component lists the routing-table write indices. -/
def process_route_line (st : ServerState) (line0 : Chars) : ServerState × List (Int × Int) :=
  let line := trim_newline line0
  if line.length = 0 ∨ starts_with_route line = false then (st, [])
  else
    match tokenize_spaces line with
    | tok :: pOutCID :: pOutStr :: pInCID :: pInStr :: _ =>
      if tok = "route".toList then file_route_tokens st pOutCID pOutStr pInCID pInStr
      else (st, [])
    | _ => (st, [])

/-! ### Monitor / recorder (`monitor_mode`, lines 664-836) -/

/-- A `struct timeval`. -/
structure Timeval where
  tv_sec : Int
  tv_usec : Int
deriving DecidableEq, Repr, Inhabited

/-- The relative-timestamp computation of the recording branch
(lines 776-783): component-wise difference with a microsecond borrow. -/
def timeval_delta (now start : Timeval) : Timeval :=
  let s := now.tv_sec - start.tv_sec
  let u := now.tv_usec - start.tv_usec
  if u < 0 then { tv_sec := s - 1, tv_usec := u + 1000000 }
  else { tv_sec := s, tv_usec := u }

/-- One data row of the CSV log: the relative timestamp written as the first
column (`"%ld.%06ld"`), then one field per channel per snapshotted client. -/
structure CsvRow where
  ts : Timeval
  fields : List Chars
deriving DecidableEq, Repr

/-- The monitor-mode locals that persist across loop iterations:
`start_time`, `recording`, the open log file (its data rows so far) and
`recorded_client_indices`. -/
structure MonState where
  start_time : Timeval
  recording : Bool
  log_file : Option (List CsvRow)
  recorded_client_indices : List Nat
deriving DecidableEq, Repr

/-- Entering monitor mode (lines 677-687): `gettimeofday(&start_time, NULL)`
is taken once, recording is off and no log is open. -/
def monitor_enter (now : Timeval) : MonState :=
  { start_time := now
    recording := false
    log_file := none
    recorded_client_indices := [] }

/-- The snapshot loop of record start (lines 743-748): the indices of the
currently active slots, in order. -/
def active_indices (cs : List ClientInfo) : List Nat :=
  (List.range cs.length).filter (fun i => (cs.getD i default).active)

/-- The `'R'` key (lines 728-769): start recording — snapshot the active
clients and open a fresh log — or stop it, closing the log.  The log file
name, header row and `fopen` failure are not modelled.  No time is read and
`start_time` is not touched. -/
def monitor_toggle_record (st : ServerState) (ms : MonState) : MonState :=
  if ms.recording = false then
    { ms with
        recording := true
        log_file := some []
        recorded_client_indices := active_indices st.clients }
  else
    { ms with recording := false, log_file := none }

/-- One CSV field (lines 789-796): `strncpy` the cached output into a
512-byte buffer and replace newlines and carriage returns by spaces. -/
def csv_sanitize (cs : Chars) : Chars :=
  (cs.take (MAX_MSG_LENGTH - 1)).map (fun c => if c = '\n' ∨ c = '\r' then ' ' else c)

/-- The per-row field list (lines 786-800): for every snapshotted slot, the
sanitised `last_out` cache of each of its channels. -/
def record_row_fields (st : ServerState) (idxs : List Nat) : List Chars :=
  (idxs.map (fun i =>
    (List.range CHANNELS_PER_APP).map (fun ch =>
      csv_sanitize ((st.client_data.getD i default).last_out.getD ch [])))).flatten

/-- The `if (recording && log_file)` block (lines 775-803): append one data
row whose first column is `timeval_delta now start_time`. -/
def monitor_tick_record (st : ServerState) (ms : MonState) (now : Timeval) : MonState :=
  match ms.log_file with
  | some rows =>
    if ms.recording then
      { ms with log_file := some (rows ++
          [{ ts := timeval_delta now ms.start_time
             fields := record_row_fields st ms.recorded_client_indices }]) }
    else ms
  | none => ms

/-- One iteration of the monitor loop at wall-clock time `now`, restricted to
the parts that touch the recorder: an optional pending keypress (`'R'`/`'r'`
toggles recording; other keys are ignored, `'Q'` only exits the loop), then
the recording block.  Client-socket servicing and the screen redraw do not
touch the recorder state. -/
def monitor_iteration (st : ServerState) (ms : MonState) (key : Option Char)
    (now : Timeval) : MonState :=
  let ms1 :=
    match key with
    | some k => if k = 'R' ∨ k = 'r' then monitor_toggle_record st ms else ms
    | none => ms
  monitor_tick_record st ms1 now

/-- A whole run of the monitor loop over a sequence of (keypress, time)
events. -/
def monitor_run (st : ServerState) : MonState → List (Option Char × Timeval) → MonState
  | ms, [] => ms
  | ms, (k, t) :: rest => monitor_run st (monitor_iteration st ms k t) rest

/-! ### Supporting states and general lemmas -/

/-- A concrete reachable state: clients 1 and 2 connected in slots 0 and 1
(sockets 7 and 8), all caches empty, and the route
`client1.out0 -> client2.in0` configured. -/
def demo_state : ServerState :=
  { clients :=
      { sockfd := 7, client_id := 1, active := true, name := client_name 1 } ::
      { sockfd := 8, client_id := 2, active := true, name := client_name 2 } ::
      List.replicate 18 { sockfd := 0, client_id := 0, active := false, name := [] }
    client_data := List.replicate MAX_CLIENTS
      { last_out := List.replicate CHANNELS_PER_APP []
        last_in := List.replicate CHANNELS_PER_APP [] }
    next_client_id := 3
    routing := routing_set (fun _ _ => { in_client_id := -1, in_channel := -1 }) 1 0
                 { in_client_id := 2, in_channel := 0 } }

/-- A state whose every slot is occupied by an active client. -/
def full_state : ServerState :=
  { init_state with
      clients := List.replicate MAX_CLIENTS
        { sockfd := 3, client_id := 1, active := true, name := [] }
      next_client_id := 21 }

theorem getD_set_self {α : Type} (l : List α) (i : Nat) (a d : α) (h : i < l.length) :
    (l.set i a).getD i d = a := by
  rw [List.getD_eq_getElem?_getD, List.getElem?_set_eq_of_lt a h]; rfl

theorem getD_set_ne {α : Type} (l : List α) {i j : Nat} (a d : α) (h : i ≠ j) :
    (l.set i a).getD j d = l.getD j d := by
  rw [List.getD_eq_getElem?_getD, List.getElem?_set_ne h, ← List.getD_eq_getElem?_getD]

theorem complete_lines_no_newline (l : Chars) (h : '\n' ∉ l) : complete_lines l = [] := by
  induction l with
  | nil => rfl
  | cons c rest ih =>
    simp only [List.mem_cons, not_or] at h
    have hc : ¬(c = '\n') := fun hc => h.1 hc.symm
    simp [complete_lines, hc, ih h.2]

theorem complete_lines_append (l r : Chars) (h : '\n' ∉ l) :
    complete_lines (l ++ '\n' :: r) = l :: complete_lines r := by
  induction l with
  | nil => simp [complete_lines]
  | cons c rest ih =>
    simp only [List.mem_cons, not_or] at h
    have hc : ¬(c = '\n') := fun hc => h.1 hc.symm
    simp [complete_lines, hc, ih h.2]

theorem find_free_slot_none (cs : List ClientInfo) (h : ∀ c ∈ cs, c.active = true) :
    find_free_slot cs = none := by
  induction cs with
  | nil => rfl
  | cons c rest ih =>
    simp [find_free_slot, h c (by simp), ih (fun x hx => h x (by simp [hx]))]

theorem find_from_neg (cs : List ClientInfo) (cid : Int)
    (h : ∀ k, k < cs.length →
      ¬((cs.getD k default).active = true ∧ (cs.getD k default).client_id = cid)) :
    ∀ i, find_client_index_from cs cid i = -1 := by
  induction cs with
  | nil => intro i; rfl
  | cons c rest ih =>
    intro i
    have hcond : ¬(c.active = true ∧ c.client_id = cid) := by
      have := h 0 (by simp)
      simpa using this
    have hrec := ih (fun k hk => by
      have := h (k + 1) (by simp; omega)
      simpa using this)
    cases hb : (c.active && (c.client_id == cid)) with
    | false => simp [find_client_index_from, hb]; exact hrec (i + 1)
    | true =>
      exfalso
      simp only [Bool.and_eq_true, beq_iff_eq] at hb
      exact hcond hb

theorem digit_char_facts (c : Nat) (h : c < 10) :
    (Char.ofNat (48 + c)).isDigit = true ∧
    ((Char.ofNat (48 + c)).toNat : Int) - 48 = (c : Int) ∧
    Char.ofNat (48 + c) ≠ ':' ∧ Char.ofNat (48 + c) ≠ '\n' ∧
    Char.ofNat (48 + c) ≠ '\r' ∧ Char.ofNat (48 + c) ≠ ' ' ∧
    Char.ofNat (48 + c) ≠ '\t' ∧
    int_chars (c : Int) = [Char.ofNat (48 + c)] := by
  interval_cases c <;>
    exact ⟨by decide, by decide, by decide, by decide, by decide, by decide, by decide,
           by decide⟩

/-! ### C3 — route pre-configuration -/

/-- C3 counterexample: with no client connected, the console `route 1 0 2 0`
command leaves the state untouched and in particular does not install the
entry `routing[1][0] = (2, 0)` that the claim asserts both paths install. -/
theorem c3_counterexample :
    route_command init_state 1 0 2 0 = init_state ∧
    (route_command init_state 1 0 2 0).routing 1 0
      ≠ { in_client_id := 2, in_channel := 0 } := by
  have h : find_client_index init_state 1 = -1 := by decide
  have h1 : route_command init_state 1 0 2 0 = init_state := by
    simp [route_command, h]
  refine ⟨h1, ?_⟩
  rw [h1]
  decide

/-- C3 amended: the startup route loader installs a routing entry with no
liveness requirement on either endpoint, while the console `route` command
refuses — leaving the state unchanged — whenever either endpoint is not a
live client. -/
theorem c3_preconfiguration (st : ServerState) (a oc b ic : Int)
    (h : find_client_index st a < 0 ∨ find_client_index st b < 0) :
    (route_command_from_file st a oc b ic).routing a oc
        = { in_client_id := b, in_channel := ic } ∧
    route_command st a oc b ic = st := by
  refine ⟨by simp [route_command_from_file, routing_set], ?_⟩
  rcases h with h | h
  · simp [route_command, h]
  · by_cases h2 : find_client_index st a < 0
    · simp [route_command, h2]
    · simp [route_command, h2, h]

/-- Witness for `c3_preconfiguration` at the initial state. -/
theorem c3_preconfiguration_witness :
    (find_client_index init_state 1 < 0 ∨ find_client_index init_state 2 < 0) ∧
    ((route_command_from_file init_state 1 0 2 0).routing 1 0
        = { in_client_id := 2, in_channel := 0 } ∧
     route_command init_state 1 0 2 0 = init_state) :=
  ⟨Or.inl (by decide), c3_preconfiguration init_state 1 0 2 0 (Or.inl (by decide))⟩

/-! ### C6 — registry bound -/

/-- C6: when every slot of the registry is occupied, a further connection is
sent the server-full notice and closed, and the server state — slots, ids,
caches, routes, `next_client_id` — is completely unchanged. -/
theorem c6_registry_bound (st : ServerState) (sock : Int)
    (hfull : ∀ c ∈ st.clients, c.active = true) :
    handle_new_connection st sock =
      (st, [Action.sent sock server_full_msg, Action.closed sock]) := by
  unfold handle_new_connection
  rw [find_free_slot_none st.clients hfull]

/-- Witness for `c6_registry_bound` at a fully occupied state. -/
theorem c6_registry_bound_witness :
    (∀ c ∈ full_state.clients, c.active = true) ∧
    handle_new_connection full_state 99 =
      (full_state, [Action.sent 99 server_full_msg, Action.closed 99]) :=
  ⟨by decide, c6_registry_bound full_state 99 (by decide)⟩

/-! ### C7 — bulk-route expansion -/

set_option maxHeartbeats 3200000 in
/-- C7: `route A all B all` leaves the state exactly as the five commands
`route A i B i` (same-index alignment) do, and `route A all B d` as the five
commands `route A i B d`; the startup loader's expansion agrees likewise. -/
theorem c7_bulk_expansion (st st2 : ServerState) (pA pB : Chars) (d : Fin 5) :
    console_route_tokens st pA "all".toList pB "all".toList =
      (List.range 5).foldl
        (fun s i => console_route_tokens s pA (int_chars i) pB (int_chars i)) st ∧
    console_route_tokens st pA "all".toList pB (int_chars (d : Nat)) =
      (List.range 5).foldl
        (fun s i => console_route_tokens s pA (int_chars i) pB (int_chars (d : Nat))) st ∧
    (file_route_tokens st2 pA "all".toList pB "all".toList).1 =
      (List.range 5).foldl
        (fun s i => (file_route_tokens s pA (int_chars i) pB (int_chars i)).1) st2 ∧
    (file_route_tokens st2 pA "all".toList pB (int_chars (d : Nat))).1 =
      (List.range 5).foldl
        (fun s i => (file_route_tokens s pA (int_chars i) pB (int_chars (d : Nat))).1) st2 := by
  fin_cases d <;> exact ⟨rfl, rfl, rfl, rfl⟩

/-! ### C8 — routing-table access bounds -/

/-- C8 (the code violates the claim): processing the startup-file line
`route 21 0 1 0` performs a routing-table write at row index 21, but
`Route routing[MAX_CLIENTS + 1][CHANNELS_PER_APP]` only has rows
`0 .. MAX_CLIENTS = 20` — an out-of-bounds array write.  The same index is
reached by the dispatcher once `next_client_id` passes `MAX_CLIENTS + 1`. -/
theorem c8_routing_bounds_bug :
    (process_route_line init_state "route 21 0 1 0".toList).2 = [(21, 0)] ∧
    ¬ routing_row_in_bounds 21 :=
  ⟨by decide, by decide⟩

/-! ### C2 — partial-frame handling -/

/-- C2 counterexample: the frame `out0: hello` split as the two reads
`out0: he` and `llo\n` is never dispatched — both reads produce no action
and client 1's output cache on channel 0 stays empty instead of holding
`hello` — because `handle_client_input` keeps no accumulation buffer across
calls. -/
theorem c2_counterexample :
    (handle_client_input demo_state 0 (some "out0: he".toList)).2 = [] ∧
    (handle_client_input (handle_client_input demo_state 0 (some "out0: he".toList)).1
        0 (some "llo\n".toList)).2 = [] ∧
    ((handle_client_input (handle_client_input demo_state 0 (some "out0: he".toList)).1
        0 (some "llo\n".toList)).1.client_data.getD 0 default).last_out.getD 0 [] = [] ∧
    ([] : Chars) ≠ "hello".toList :=
  ⟨by decide, by decide, by decide, by decide⟩

/-- C2 amended: each call of the dispatcher works on a per-call stack buffer;
only frames completed within that single read are acted on, and a read with
no newline — in particular a trailing partial frame — is discarded outright:
it changes nothing and has no influence on the processing of the next read,
so a frame split across two reads is never dispatched. -/
theorem c2_partial_frame_discarded (st : ServerState) (i : Nat) (p q : Chars)
    (h : '\n' ∉ p) :
    handle_client_input st i (some p) = (st, []) ∧
    handle_client_input ((handle_client_input st i (some p)).1) i (some q)
      = handle_client_input st i (some q) := by
  have h1 : handle_client_input st i (some p) = (st, []) := by
    simp [handle_client_input, complete_lines_no_newline p h, dispatch_lines]
  exact ⟨h1, by rw [h1]⟩

/-- Witness for `c2_partial_frame_discarded` on the split `hello` frame. -/
theorem c2_partial_frame_discarded_witness :
    ('\n' ∉ "out0: he".toList) ∧
    (handle_client_input demo_state 0 (some "out0: he".toList) = (demo_state, []) ∧
     handle_client_input ((handle_client_input demo_state 0 (some "out0: he".toList)).1)
         0 (some "llo\n".toList)
       = handle_client_input demo_state 0 (some "llo\n".toList)) :=
  ⟨by decide,
   c2_partial_frame_discarded demo_state 0 "out0: he".toList "llo\n".toList (by decide)⟩

/-! ### C4 — recording-row timestamp baseline -/

/-- C4 counterexample: monitor mode is entered at wall-clock time 0; ten
seconds later one iteration both starts a recording session (`'R'`) and writes
the session's first data row.  Zero time has elapsed since the session
started, yet the row's first column is `10.000000`, not `0.000000`: the
baseline is monitor-mode entry, not the recording start. -/
theorem c4_counterexample :
    (monitor_iteration init_state (monitor_enter { tv_sec := 0, tv_usec := 0 })
        (some 'R') { tv_sec := 10, tv_usec := 0 }).log_file
      = some [{ ts := { tv_sec := 10, tv_usec := 0 }, fields := [] }] ∧
    ({ tv_sec := 10, tv_usec := 0 } : Timeval) ≠ { tv_sec := 0, tv_usec := 0 } :=
  ⟨by decide, by decide⟩

theorem monitor_toggle_rows (st : ServerState) (ms : MonState) :
    (monitor_toggle_record st ms).start_time = ms.start_time ∧
    ∀ row ∈ ((monitor_toggle_record st ms).log_file.getD []),
      row ∈ ms.log_file.getD [] := by
  unfold monitor_toggle_record
  split_ifs <;> exact ⟨rfl, by simp⟩

theorem monitor_tick_rows (st : ServerState) (ms : MonState) (t : Timeval) :
    (monitor_tick_record st ms t).start_time = ms.start_time ∧
    ∀ row ∈ ((monitor_tick_record st ms t).log_file.getD []),
      row ∈ ms.log_file.getD [] ∨ row.ts = timeval_delta t ms.start_time := by
  unfold monitor_tick_record
  rcases hl : ms.log_file with - | rows
  · simp [hl]
  · simp only [hl]
    split_ifs with hrec
    · refine ⟨rfl, ?_⟩
      intro row hrow
      simp only [Option.getD_some, List.mem_append] at hrow
      rcases hrow with h | h
      · exact Or.inl (by simp [hl, h])
      · simp only [List.mem_singleton] at h
        exact Or.inr (by rw [h])
    · exact ⟨rfl, fun row hrow => Or.inl (by simpa [hl] using hrow)⟩

theorem monitor_iteration_rows (st : ServerState) (ms : MonState) (k : Option Char)
    (t : Timeval) :
    (monitor_iteration st ms k t).start_time = ms.start_time ∧
    ∀ row ∈ ((monitor_iteration st ms k t).log_file.getD []),
      row ∈ ms.log_file.getD [] ∨ row.ts = timeval_delta t ms.start_time := by
  rcases k with - | key
  · exact monitor_tick_rows st ms t
  · have hEq : monitor_iteration st ms (some key) t
        = monitor_tick_record st
            (if key = 'R' ∨ key = 'r' then monitor_toggle_record st ms else ms) t := rfl
    rw [hEq]
    by_cases hk : key = 'R' ∨ key = 'r'
    · rw [if_pos hk]
      have htog := monitor_toggle_rows st ms
      have htick := monitor_tick_rows st (monitor_toggle_record st ms) t
      refine ⟨by rw [htick.1, htog.1], ?_⟩
      intro row hrow
      rcases htick.2 row hrow with hin | hts
      · exact Or.inl (htog.2 row hin)
      · rw [htog.1] at hts
        exact Or.inr hts
    · rw [if_neg hk]
      exact monitor_tick_rows st ms t

theorem monitor_run_rows (st : ServerState) (evs : List (Option Char × Timeval)) :
    ∀ ms : MonState,
      (monitor_run st ms evs).start_time = ms.start_time ∧
      ∀ row ∈ ((monitor_run st ms evs).log_file.getD []),
        row ∈ ms.log_file.getD [] ∨ ∃ ev ∈ evs, row.ts = timeval_delta ev.2 ms.start_time := by
  induction evs with
  | nil => exact fun ms => ⟨rfl, fun row hr => Or.inl hr⟩
  | cons e rest ih =>
    intro ms
    obtain ⟨k, t⟩ := e
    have hit := monitor_iteration_rows st ms k t
    have hrun := ih (monitor_iteration st ms k t)
    constructor
    · show (monitor_run st (monitor_iteration st ms k t) rest).start_time = _
      rw [hrun.1, hit.1]
    · intro row hr
      have hr' : row ∈ (monitor_run st (monitor_iteration st ms k t) rest).log_file.getD [] := hr
      rcases hrun.2 row hr' with hin | ⟨ev, hev, hts⟩
      · rcases hit.2 row hin with h1 | h2
        · exact Or.inl h1
        · exact Or.inr ⟨(k, t), by simp, h2⟩
      · exact Or.inr ⟨ev, by simp [hev], by rw [hts, hit.1]⟩

/-- C4 amended: `start_time` is captured once, at monitor-mode entry, and no
later toggle or tick changes it; consequently every data row ever appended
carries as its first column the `timeval_delta` between some iteration's
wall-clock time and the monitor-mode entry time — not the elapsed time since
its recording session started, so the first row of a session started late
does not begin near zero. -/
theorem c4_timestamp_baseline (st : ServerState) (t0 : Timeval)
    (evs : List (Option Char × Timeval)) :
    (monitor_run st (monitor_enter t0) evs).start_time = t0 ∧
    ∀ row ∈ ((monitor_run st (monitor_enter t0) evs).log_file.getD []),
      ∃ ev ∈ evs, row.ts = timeval_delta ev.2 t0 := by
  have h := monitor_run_rows st evs (monitor_enter t0)
  refine ⟨h.1, fun row hr => ?_⟩
  rcases h.2 row hr with hin | hex
  · simp [monitor_enter] at hin
  · exact hex

/-- Witness for `c4_timestamp_baseline` on the late-toggle scenario. -/
theorem c4_timestamp_baseline_witness :
    (monitor_run init_state (monitor_enter { tv_sec := 0, tv_usec := 0 })
        [(some 'R', { tv_sec := 10, tv_usec := 0 })]).start_time
      = { tv_sec := 0, tv_usec := 0 } ∧
    ∀ row ∈ ((monitor_run init_state (monitor_enter { tv_sec := 0, tv_usec := 0 })
        [(some 'R', { tv_sec := 10, tv_usec := 0 })]).log_file.getD []),
      ∃ ev ∈ [((some 'R' : Option Char), ({ tv_sec := 10, tv_usec := 0 } : Timeval))],
        row.ts = timeval_delta ev.2 { tv_sec := 0, tv_usec := 0 } :=
  c4_timestamp_baseline init_state { tv_sec := 0, tv_usec := 0 }
    [(some 'R', { tv_sec := 10, tv_usec := 0 })]

/-! ### C10 — slot reuse exposes prior caches -/

/-- A state with a single connected client (slot 0, id 1) whose output
channel 0 cache holds `hi`. -/
def reuse_state : ServerState :=
  { clients :=
      { sockfd := 7, client_id := 1, active := true, name := client_name 1 } ::
      List.replicate 19 { sockfd := 0, client_id := 0, active := false, name := [] }
    client_data :=
      { last_out := "hi".toList :: List.replicate 4 []
        last_in := List.replicate CHANNELS_PER_APP [] } ::
      List.replicate 19
        { last_out := List.replicate CHANNELS_PER_APP []
          last_in := List.replicate CHANNELS_PER_APP [] }
    next_client_id := 2
    routing := fun _ _ => { in_client_id := -1, in_channel := -1 } }

/-- C10: a disconnect clears only the `active` flag — every channel cache
survives — and a new connection initialises no cache either; so when the freed
slot is the one the next connection receives, the new client starts with the
previous occupant's cached channel texts. -/
theorem c10_slot_reuse (st : ServerState) (j : Nat) (sock : Int)
    (hj : j < st.clients.length)
    (hfree : find_free_slot ((handle_client_input st j none).1).clients = some j) :
    (handle_client_input st j none).1.client_data = st.client_data ∧
    (∀ s sk, (handle_new_connection s sk).1.client_data = s.client_data) ∧
    ((handle_new_connection ((handle_client_input st j none).1) sock).1.clients.getD j
        default).client_id = st.next_client_id ∧
    (handle_new_connection ((handle_client_input st j none).1) sock).1.client_data.getD j
        default = st.client_data.getD j default := by
  have h1 : (handle_client_input st j none).1.client_data = st.client_data := rfl
  have h2 : ∀ s sk, (handle_new_connection s sk).1.client_data = s.client_data := by
    intro s sk
    unfold handle_new_connection
    cases find_free_slot s.clients <;> rfl
  refine ⟨h1, h2, ?_, ?_⟩
  · unfold handle_new_connection
    rw [hfree]
    have hlen : j < ((handle_client_input st j none).1).clients.length := by
      show j < (st.clients.set j _).length
      rw [List.length_set]
      exact hj
    exact congrArg ClientInfo.client_id (getD_set_self _ _ _ _ hlen)
  · rw [h2, h1]

/-- Witness for `c10_slot_reuse`: client 1 disconnects from slot 0 and the
next connection reuses slot 0, inheriting the cached `hi`. -/
theorem c10_slot_reuse_witness :
    (0 < reuse_state.clients.length ∧
     find_free_slot ((handle_client_input reuse_state 0 none).1).clients = some 0) ∧
    ((handle_client_input reuse_state 0 none).1.client_data = reuse_state.client_data ∧
     (∀ s sk, (handle_new_connection s sk).1.client_data = s.client_data) ∧
     ((handle_new_connection ((handle_client_input reuse_state 0 none).1) 9).1.clients.getD 0
         default).client_id = reuse_state.next_client_id ∧
     (handle_new_connection ((handle_client_input reuse_state 0 none).1) 9).1.client_data.getD 0
         default = reuse_state.client_data.getD 0 default) :=
  ⟨⟨by decide, by decide⟩, c10_slot_reuse reuse_state 0 9 (by decide) (by decide)⟩

/-! ### Frame-dispatch machinery for C1, C5, C9 -/

/-- The canonical wire frame `out<c>: <X>` (without its terminating newline). -/
def out_frame (c : Nat) (X : Chars) : Chars :=
  'o' :: 'u' :: 't' :: Char.ofNat (48 + c) :: ':' :: ' ' :: X

/-- The forwarding envelope `snprintf(outbuf, 600, "in%d from client%d: %s\n",
inCH, outCID, msg)` before its 599-byte cap. -/
def envelope (d : Nat) (A : Int) (X : Chars) : Chars :=
  "in".toList ++ int_chars (d : Int) ++ " from client".toList ++ int_chars A
    ++ ": ".toList ++ X ++ ['\n']

/-- The `record_output` effect of `handle_client_input` (lines 274-276): store
the payload, capped by `strncpy(..., MAX_MSG_LENGTH - 1)`, as slot `i`'s last
output on channel `out_ch`. -/
def store_out (st : ServerState) (i : Nat) (out_ch : Nat) (msg : Chars) : ServerState :=
  let cd := st.client_data.getD i default
  let cd1 := { cd with last_out := cd.last_out.set out_ch (msg.take (MAX_MSG_LENGTH - 1)) }
  { st with client_data := st.client_data.set i cd1 }

/-- The `record_input` effect of `handle_client_input` (lines 289-291): store
the capped envelope as slot `j`'s last input on channel `ch`. -/
def store_in (st : ServerState) (j : Nat) (ch : Nat) (text : Chars) : ServerState :=
  let cdj := st.client_data.getD j default
  let cdj1 := { cdj with last_in := cdj.last_in.set ch (text.take (MAX_MSG_LENGTH - 1)) }
  { st with client_data := st.client_data.set j cdj1 }

/-- The body of `dispatch_line` once the line has been recognised as the
channel message `out<out_ch>: <msg>`; definitionally equal to the
corresponding branch of `dispatch_line` (see `dispatch_line_out_frame`). -/
def dispatch_payload (st : ServerState) (i : Nat) (out_ch : Nat) (msg : Chars) :
    ServerState × List Action :=
  let st1 := store_out st i out_ch msg
  let out_cid := (st.clients.getD i default).client_id
  let r := st1.routing out_cid (out_ch : Int)
  if 0 ≤ r.in_client_id then
    let idx_in := find_client_index st1 r.in_client_id
    if 0 ≤ idx_in ∧ (st1.clients.getD idx_in.toNat default).active then
      let outbuf := ("in".toList ++ int_chars r.in_channel ++ " from client".toList
                      ++ int_chars out_cid ++ ": ".toList ++ msg ++ ['\n']).take 599
      (store_in st1 idx_in.toNat r.in_channel.toNat outbuf,
       [Action.sent (st1.clients.getD idx_in.toNat default).sockfd outbuf])
    else (st1, [])
  else (st1, [])

theorem dispatch_line_out_frame (st : ServerState) (i : Nat) (c : Nat) (X : Chars)
    (hc : c < 5) (hXcr : '\r' ∉ X)
    (hXsp : X.dropWhile (fun ch => ch == ' ' || ch == '\t') = X) :
    dispatch_line st i (out_frame c X) = dispatch_payload st i c X := by
  obtain ⟨hdig, hval, hcolon, -, hcr, -, -, -⟩ := digit_char_facts c (by omega)
  have htw : (out_frame c X).takeWhile (fun ch => ch != '\r') = out_frame c X := by
    rw [List.takeWhile_eq_self_iff]
    intro x hx
    simp only [out_frame, List.mem_cons] at hx
    rcases hx with rfl | rfl | rfl | rfl | rfl | rfl | hxm
    · decide
    · decide
    · decide
    · simp only [bne_iff_ne, ne_eq]
      exact hcr
    · decide
    · decide
    · simp only [bne_iff_ne, ne_eq]
      intro hx
      exact hXcr (hx ▸ hxm)
  have hafc : after_first_colon (out_frame c X) = some (' ' :: X) := by
    simp [out_frame, after_first_colon, hcolon]
  have hmsg : (' ' :: X).dropWhile (fun ch => ch == ' ' || ch == '\t') = X := by
    simp [List.dropWhile, hXsp]
  unfold dispatch_line dispatch_payload store_out store_in
  rw [htw]
  simp only [out_frame] at hafc ⊢
  rw [hdig]
  simp only [eq_self_iff_true, if_true]
  rw [hval, hafc]
  simp only [hmsg]
  have hc0 : (0 : Int) ≤ (c : Int) ∧ (c : Int) < (CHANNELS_PER_APP : Int) := by
    refine ⟨Int.ofNat_nonneg c, ?_⟩
    show (c : Int) < ((5 : Nat) : Int)
    exact_mod_cast hc
  rw [if_pos hc0]
  rw [Int.toNat_natCast]

theorem newline_notin_out_frame (c : Nat) (hc : c < 5) (X : Chars) (hX : '\n' ∉ X) :
    '\n' ∉ out_frame c X := by
  obtain ⟨-, -, -, hnl, -, -, -, -⟩ := digit_char_facts c (by omega)
  intro hmem
  simp only [out_frame, List.mem_cons] at hmem
  rcases hmem with h | h | h | h | h | h | h
  · exact absurd h (by decide)
  · exact absurd h (by decide)
  · exact absurd h (by decide)
  · exact hnl h.symm
  · exact absurd h (by decide)
  · exact absurd h (by decide)
  · exact hX h

theorem handle_one_frame (st : ServerState) (i : Nat) (l : Chars) (h : '\n' ∉ l) :
    handle_client_input st i (some (l ++ ['\n'])) = dispatch_line st i l := by
  have hcl : complete_lines (l ++ ['\n']) = [l] := by
    have h2 := complete_lines_append l [] h
    simpa [complete_lines] using h2
  show dispatch_lines i st (complete_lines (l ++ ['\n'])) = _
  rw [hcl]
  simp [dispatch_lines]

theorem WF_cache_lengths (st : ServerState) (hWF : st.WF) (i : Nat) (hi : i < MAX_CLIENTS) :
    (st.client_data.getD i default).last_out.length = CHANNELS_PER_APP ∧
    (st.client_data.getD i default).last_in.length = CHANNELS_PER_APP := by
  obtain ⟨h1, h2, h3⟩ := hWF
  have hilen : i < st.client_data.length := by omega
  have hmem : st.client_data.getD i default ∈ st.client_data := by
    rw [List.getD_eq_getElem?_getD, List.getElem?_eq_getElem hilen, Option.getD_some]
    exact List.getElem_mem hilen
  exact h3 _ hmem

theorem store_out_clients (st : ServerState) (i out_ch : Nat) (msg : Chars) :
    (store_out st i out_ch msg).clients = st.clients := rfl

theorem store_out_routing (st : ServerState) (i out_ch : Nat) (msg : Chars) :
    (store_out st i out_ch msg).routing = st.routing := rfl

theorem store_out_data_length (st : ServerState) (i out_ch : Nat) (msg : Chars) :
    (store_out st i out_ch msg).client_data.length = st.client_data.length := by
  simp [store_out, List.length_set]

theorem store_out_getD_self_out (st : ServerState) (i out_ch : Nat) (msg : Chars)
    (hilen : i < st.client_data.length) :
    ((store_out st i out_ch msg).client_data.getD i default).last_out
      = (st.client_data.getD i default).last_out.set out_ch
          (msg.take (MAX_MSG_LENGTH - 1)) := by
  simp only [store_out]
  rw [getD_set_self _ _ _ _ hilen]

theorem store_out_getD_self_in (st : ServerState) (i out_ch : Nat) (msg : Chars)
    (hilen : i < st.client_data.length) :
    ((store_out st i out_ch msg).client_data.getD i default).last_in
      = (st.client_data.getD i default).last_in := by
  simp only [store_out]
  rw [getD_set_self _ _ _ _ hilen]

theorem store_out_getD_ne (st : ServerState) (i out_ch k : Nat) (msg : Chars)
    (hk : i ≠ k) :
    (store_out st i out_ch msg).client_data.getD k default
      = st.client_data.getD k default := by
  simp only [store_out]
  exact getD_set_ne _ _ _ hk

theorem store_in_preserves_last_out (st : ServerState) (j ch : Nat) (text : Chars)
    (k : Nat) :
    ((store_in st j ch text).client_data.getD k default).last_out
      = (st.client_data.getD k default).last_out := by
  simp only [store_in]
  by_cases hjk : j = k
  · subst hjk
    by_cases hl : j < st.client_data.length
    · rw [getD_set_self _ _ _ _ hl]
    · rw [List.set_eq_of_length_le (by omega)]
  · rw [getD_set_ne _ _ _ hjk]

theorem store_in_getD_self_in (st : ServerState) (j ch : Nat) (text : Chars)
    (hj : j < st.client_data.length)
    (hch : ch < (st.client_data.getD j default).last_in.length) :
    ((store_in st j ch text).client_data.getD j default).last_in.getD ch []
      = text.take (MAX_MSG_LENGTH - 1) := by
  simp only [store_in]
  rw [getD_set_self _ _ _ _ hj]
  exact getD_set_self _ _ _ _ hch

theorem find_on_store_out (st : ServerState) (i out_ch : Nat) (msg : Chars) (cid : Int) :
    find_client_index (store_out st i out_ch msg) cid
      = find_client_index_from st.clients cid 0 := rfl

theorem dispatch_payload_last_out (st : ServerState) (i : Nat) (c : Nat) (msg : Chars)
    (hilen : i < st.client_data.length)
    (hc : c < (st.client_data.getD i default).last_out.length) :
    (((dispatch_payload st i c msg).1.client_data.getD i default).last_out.getD c [])
      = msg.take (MAX_MSG_LENGTH - 1) := by
  have hself : ((store_out st i c msg).client_data.getD i default).last_out.getD c []
      = msg.take (MAX_MSG_LENGTH - 1) := by
    rw [store_out_getD_self_out st i c msg hilen]
    exact getD_set_self _ _ _ _ hc
  simp only [dispatch_payload]
  split_ifs with h1 h2
  · dsimp only
    rw [store_in_preserves_last_out]
    exact hself
  · exact hself
  · exact hself

theorem dispatch_payload_unrouted (st : ServerState) (i : Nat) (c : Nat) (msg : Chars)
    (B dI : Int)
    (hroute : st.routing (st.clients.getD i default).client_id (c : Int)
      = { in_client_id := B, in_channel := dI })
    (hBpos : 0 ≤ B)
    (hfind : find_client_index_from st.clients B 0 = -1) :
    dispatch_payload st i c msg = (store_out st i c msg, []) := by
  simp only [dispatch_payload, store_out_routing]
  rw [hroute]
  rw [if_pos hBpos]
  rw [if_neg]
  intro hcontra
  rw [find_on_store_out, hfind] at hcontra
  exact absurd hcontra.1 (by decide)

theorem dispatch_payload_forward (st : ServerState) (i j : Nat) (c d : Nat) (msg : Chars)
    (A B : Int)
    (hA : (st.clients.getD i default).client_id = A)
    (hroute : st.routing A (c : Int) = { in_client_id := B, in_channel := (d : Int) })
    (hBpos : 0 ≤ B)
    (hfind : find_client_index_from st.clients B 0 = (j : Int))
    (hjact : (st.clients.getD j default).active = true) :
    dispatch_payload st i c msg =
      (store_in (store_out st i c msg) j d
        ((envelope d A msg).take 599),
       [Action.sent (st.clients.getD j default).sockfd ((envelope d A msg).take 599)]) := by
  simp only [dispatch_payload, store_out_routing, envelope]
  rw [hA, hroute]
  rw [if_pos hBpos]
  rw [find_on_store_out, hfind]
  rw [if_pos ⟨Int.ofNat_nonneg j, by
    rw [Int.toNat_natCast, store_out_clients]; exact hjact⟩]
  rw [Int.toNat_natCast, Int.toNat_natCast, store_out_clients]

/-! ### C9 — unconditional output-cache update -/

/-- C9: a complete frame `out<c>: X` received in one read from the live client
in slot `i` always updates that client's channel-`c` output cache to the
payload capped at `MAX_MSG_LENGTH - 1 = 511` bytes — whatever the routing
table holds for `(client, c)` and whether or not any destination is live. -/
theorem c9_output_cache_unconditional (st : ServerState) (i : Nat) (c : Nat) (X : Chars)
    (hWF : st.WF) (hi : i < MAX_CLIENTS) (hc : c < 5)
    (_hact : (st.clients.getD i default).active = true)
    (hXnl : '\n' ∉ X) (hXcr : '\r' ∉ X)
    (hXsp : X.dropWhile (fun ch => ch == ' ' || ch == '\t') = X) :
    (((handle_client_input st i (some (out_frame c X ++ ['\n']))).1.client_data.getD i
        default).last_out.getD c [])
      = X.take (MAX_MSG_LENGTH - 1) := by
  rw [handle_one_frame st i _ (newline_notin_out_frame c hc X hXnl)]
  rw [dispatch_line_out_frame st i c X hc hXcr hXsp]
  have hilen : i < st.client_data.length := by
    obtain ⟨-, h2, -⟩ := hWF
    omega
  have hlen := (WF_cache_lengths st hWF i hi).1
  exact dispatch_payload_last_out st i c X hilen (by rw [hlen]; exact hc)

/-- Witness for `c9_output_cache_unconditional`: `out0: hello` from client 1
of `demo_state`. -/
theorem c9_output_cache_unconditional_witness :
    demo_state.WF ∧
    (((handle_client_input demo_state 0
        (some (out_frame 0 "hello".toList ++ ['\n']))).1.client_data.getD 0
          default).last_out.getD 0 [])
      = "hello".toList.take (MAX_MSG_LENGTH - 1) :=
  ⟨by decide,
   c9_output_cache_unconditional demo_state 0 0 "hello".toList (by decide) (by decide)
     (by decide) (by decide) (by decide) (by decide) (by decide)⟩

/-! ### C5 — stale-route safety -/

/-- C5: the destination's disconnect leaves the routing table untouched, and a
later frame matching the stale route is dropped silently — no send, no error,
and no state change beyond the sender's own unconditional output-cache
update. -/
theorem c5_stale_route_safety (st : ServerState) (i j : Nat) (c : Nat)
    (A B dI : Int) (X : Chars)
    (_hi : i < st.clients.length) (hj : j < st.clients.length) (hij : i ≠ j)
    (hA : (st.clients.getD i default).client_id = A)
    (hroute : st.routing A (c : Int) = { in_client_id := B, in_channel := dI })
    (hBpos : 0 ≤ B)
    (huniq : ∀ k, k < st.clients.length → k ≠ j →
      ¬((st.clients.getD k default).active = true ∧
        (st.clients.getD k default).client_id = B))
    (hc : c < 5)
    (hXnl : '\n' ∉ X) (hXcr : '\r' ∉ X)
    (hXsp : X.dropWhile (fun ch => ch == ' ' || ch == '\t') = X) :
    (handle_client_input st j none).1.routing = st.routing ∧
    handle_client_input ((handle_client_input st j none).1) i
        (some (out_frame c X ++ ['\n']))
      = (store_out ((handle_client_input st j none).1) i c X, []) := by
  refine ⟨rfl, ?_⟩
  set st' := (handle_client_input st j none).1 with hst'
  rw [handle_one_frame st' i _ (newline_notin_out_frame c hc X hXnl)]
  rw [dispatch_line_out_frame st' i c X hc hXcr hXsp]
  have hclients : st'.clients = st.clients.set j
      { st.clients.getD j default with active := false } := rfl
  have hA' : (st'.clients.getD i default).client_id = A := by
    rw [hclients, getD_set_ne _ _ _ (fun h => hij h.symm)]
    exact hA
  have hroute' : st'.routing (st'.clients.getD i default).client_id (c : Int)
      = { in_client_id := B, in_channel := dI } := by
    rw [hA']
    exact hroute
  have hfind' : find_client_index_from st'.clients B 0 = -1 := by
    apply find_from_neg
    intro k hk
    rw [hclients] at hk ⊢
    rw [List.length_set] at hk
    by_cases hkj : k = j
    · subst hkj
      rw [getD_set_self _ _ _ _ hj]
      simp
    · rw [getD_set_ne _ _ _ (fun h => hkj h.symm)]
      exact huniq k hk hkj
  rw [dispatch_payload_unrouted st' i c X B dI hroute' hBpos hfind']

/-- Witness for `c5_stale_route_safety`: client 2 of `demo_state` disconnects,
then client 1 sends `out0: hello` on its now-stale route. -/
theorem c5_stale_route_safety_witness :
    (∀ k, k < demo_state.clients.length → k ≠ 1 →
      ¬((demo_state.clients.getD k default).active = true ∧
        (demo_state.clients.getD k default).client_id = 2)) ∧
    ((handle_client_input demo_state 1 none).1.routing = demo_state.routing ∧
     handle_client_input ((handle_client_input demo_state 1 none).1) 0
        (some (out_frame 0 "hello".toList ++ ['\n']))
      = (store_out ((handle_client_input demo_state 1 none).1) 0 0 "hello".toList, [])) :=
  ⟨by decide,
   c5_stale_route_safety demo_state 0 1 0 1 2 0 "hello".toList (by decide) (by decide)
     (by decide) (by decide) (by decide) (by decide) (by decide) (by decide) (by decide)
     (by decide) (by decide)⟩

/-! ### C1 — routing correctness -/

set_option maxRecDepth 40000 in
/-- C1 counterexample: client 1 of `demo_state` sends `out0: ` followed by 500
`a`s within one read (frame length 507 ≤ 511).  The 519-byte envelope
`in0 from client1: aaa...a\n` is delivered to client 2, but the input cache
stores only its first 511 bytes, so the text stored as client 2's most recent
input differs from the delivered text, contradicting the claim's "that same
text is stored". -/
theorem c1_counterexample :
    (handle_client_input demo_state 0
        (some (out_frame 0 (List.replicate 500 'a') ++ ['\n']))).2
      = [Action.sent 8 (envelope 0 1 (List.replicate 500 'a'))] ∧
    (((handle_client_input demo_state 0
        (some (out_frame 0 (List.replicate 500 'a') ++ ['\n']))).1.client_data.getD 1
          default).last_in.getD 0 [])
      ≠ envelope 0 1 (List.replicate 500 'a') :=
  ⟨by decide, by decide⟩

/-- C1 amended: with the route `(A, c) -> (B, d)` installed, both endpoints
live and unique, and a complete frame `out<c>: X` from `A` arriving within a
single read, the envelope `in<d> from client<A>: X` plus newline is sent
exactly once, to `B`'s socket only, and its first `MAX_MSG_LENGTH - 1 = 511`
bytes are stored as `B`'s most recent input on channel `d`. -/
theorem c1_routing_delivery (st : ServerState) (i j : Nat) (c d : Nat)
    (A B sockB : Int) (X : Chars)
    (hWF : st.WF) (hi : i < MAX_CLIENTS) (hj : j < MAX_CLIENTS)
    (hc : c < 5) (hd : d < 5)
    (hA : (st.clients.getD i default).client_id = A)
    (_hact : (st.clients.getD i default).active = true)
    (hroute : st.routing A (c : Int) = { in_client_id := B, in_channel := (d : Int) })
    (hBpos : 0 ≤ B)
    (hfind : find_client_index st B = (j : Int))
    (hjact : (st.clients.getD j default).active = true)
    (hsock : (st.clients.getD j default).sockfd = sockB)
    (hXnl : '\n' ∉ X) (hXcr : '\r' ∉ X)
    (hXsp : X.dropWhile (fun ch => ch == ' ' || ch == '\t') = X)
    (hXlen : X.length ≤ 505) (hAdig : (int_chars A).length ≤ 11) :
    (handle_client_input st i (some (out_frame c X ++ ['\n']))).2
        = [Action.sent sockB (envelope d A X)] ∧
    (((handle_client_input st i (some (out_frame c X ++ ['\n']))).1.client_data.getD j
        default).last_in.getD d [])
      = (envelope d A X).take (MAX_MSG_LENGTH - 1) := by
  have h599 : (envelope d A X).take 599 = envelope d A X := by
    apply List.take_of_length_le
    obtain ⟨-, -, -, -, -, -, -, hrepr⟩ := digit_char_facts d (by omega)
    have e1 : ("in".toList).length = 2 := rfl
    have e2 : (" from client".toList).length = 12 := rfl
    have e3 : (": ".toList).length = 2 := rfl
    simp only [envelope, List.length_append, hrepr, e1, e2, e3, List.length_cons,
      List.length_nil, List.length_singleton]
    omega
  rw [handle_one_frame st i _ (newline_notin_out_frame c hc X hXnl)]
  rw [dispatch_line_out_frame st i c X hc hXcr hXsp]
  rw [dispatch_payload_forward st i j c d X A B hA hroute hBpos hfind hjact]
  rw [h599]
  refine ⟨by rw [hsock], ?_⟩
  have hjlen : j < (store_out st i c X).client_data.length := by
    rw [store_out_data_length]
    obtain ⟨-, h2, -⟩ := hWF
    omega
  have hilen : i < st.client_data.length := by
    obtain ⟨-, h2, -⟩ := hWF
    omega
  have hdlen : d < ((store_out st i c X).client_data.getD j default).last_in.length := by
    by_cases hji : j = i
    · subst hji
      rw [store_out_getD_self_in st j c X hilen]
      rw [(WF_cache_lengths st hWF j hj).2]
      exact hd
    · rw [store_out_getD_ne st i c j X (fun h => hji h.symm)]
      rw [(WF_cache_lengths st hWF j hj).2]
      exact hd
  exact store_in_getD_self_in (store_out st i c X) j d (envelope d A X) hjlen hdlen

/-- Witness for `c1_routing_delivery`: `demo_state`, route
`client1.out0 -> client2.in0`, frame `out0: hello`. -/
theorem c1_routing_delivery_witness :
    demo_state.WF ∧ find_client_index demo_state 2 = 1 ∧
    ((handle_client_input demo_state 0
        (some (out_frame 0 "hello".toList ++ ['\n']))).2
       = [Action.sent 8 (envelope 0 1 "hello".toList)] ∧
     (((handle_client_input demo_state 0
        (some (out_frame 0 "hello".toList ++ ['\n']))).1.client_data.getD 1
          default).last_in.getD 0 [])
       = (envelope 0 1 "hello".toList).take (MAX_MSG_LENGTH - 1)) :=
  ⟨by decide, by decide,
   c1_routing_delivery demo_state 0 1 0 0 1 2 8 "hello".toList (by decide) (by decide)
     (by decide) (by decide) (by decide) (by decide) (by decide) (by decide) (by decide)
     (by decide) (by decide) (by decide) (by decide) (by decide) (by decide) (by decide)
     (by decide)⟩

end Switchboard
